import Mathlib

/-!
Verification of the voice-activity-detector repository (src/src/index.ts)
against its natural-language specification.

Numeric option fields are JavaScript numbers used only through order
comparisons and small exact arithmetic in the code under study, so they are
embedded as rationals.  The logging module (src/logging) is embedded as a
list of emitted log events; `log.warn` and `log.error` append an event and
never throw, which is why construction below is total.
-/

namespace VAD

/-- Log severities used by the logging module (`log.debug`, `log.warn`,
`log.error`). -/
inductive LogLevel where
  | debug
  | warn
  | error
deriving DecidableEq, Repr

/-- One emitted log event: a severity and the message text. -/
structure LogEvent where
  level : LogLevel
  msg : String
deriving DecidableEq, Repr

/-- The numeric configuration fields of `VadOptions`
(src/src/index.ts lines 14-25).  The four callback fields are behaviour of
the event sink, not data read by validation or construction, and are
modelled separately where a claim needs them. -/
structure VadOptions where
  positiveSpeechThreshold : ℚ
  negativeSpeechThreshold : ℚ
  redemptionFrames : ℚ
  frameSamples : ℚ
  preSpeechPadFrames : ℚ
  minSpeechFrames : ℚ
deriving DecidableEq, Repr

/-- `RECOMMENDED_FRAME_SAMPLES = [512, 1024, 1536]` (line 12). -/
def RECOMMENDED_FRAME_SAMPLES : List ℚ := [512, 1024, 1536]

/-- `defaultVadOptions` (lines 35-50), numeric fields only. -/
def defaultVadOptions : VadOptions where
  positiveSpeechThreshold := 0.5
  negativeSpeechThreshold := 0.5 - 0.15
  preSpeechPadFrames := 1
  redemptionFrames := 2
  frameSamples := 1536
  minSpeechFrames := 3

/-- `validateOptions` (lines 52-76), embedded as the list of log events it
emits, in emission order.  The function only logs; it returns no value and
throws nothing.  Each branch is transcribed from the source, including the
second branch testing `options.negativeSpeechThreshold > 1` (not the
positive threshold) and the duplicated `preSpeechPadFrames` message text of
the `redemptionFrames` branch. -/
def validateOptions (options : VadOptions) : List LogEvent :=
  (if options.frameSamples ∈ RECOMMENDED_FRAME_SAMPLES then []
   else [⟨LogLevel.warn, "You are using an unusual frame size"⟩]) ++
  (if options.positiveSpeechThreshold < 0 ∨ options.negativeSpeechThreshold > 1 then
     [⟨LogLevel.error, "postiveSpeechThreshold should be a number between 0 and 1"⟩]
   else []) ++
  (if options.negativeSpeechThreshold < 0 ∨
      options.negativeSpeechThreshold > options.positiveSpeechThreshold then
     [⟨LogLevel.error, "negativeSpeechThreshold should be between 0 and postiveSpeechThreshold"⟩]
   else []) ++
  (if options.preSpeechPadFrames < 0 then
     [⟨LogLevel.error, "preSpeechPadFrames should be positive"⟩]
   else []) ++
  (if options.redemptionFrames < 0 then
     [⟨LogLevel.error, "preSpeechPadFrames should be positive"⟩]
   else [])

/-- An engine instance as far as construction is concerned: the `MicVAD`
constructor (lines 89-91) stores its `options` argument as a public field. -/
structure MicVAD where
  options : VadOptions
deriving DecidableEq, Repr

/-- The one error kind the specification names for construction. -/
inductive ConfigError where
  | configurationError
deriving DecidableEq, Repr

/-- The `MicVAD` constructor (lines 89-91): it calls `validateOptions` and
assigns the `options` field.  In TypeScript the construction could fail only
by a thrown exception; `validateOptions` only calls `log.warn` / `log.error`
and the constructor body contains no `throw`, so the result is always `ok`.
The embedding returns the constructed instance together with the log events
emitted during construction, inside `Except` so that failure of
construction is expressible. -/
def micVADConstruct (options : VadOptions) : Except ConfigError (MicVAD × List LogEvent) :=
  Except.ok (⟨options⟩, validateOptions options)

/-- A configuration whose `negativeSpeechThreshold` (0.9) exceeds its
`positiveSpeechThreshold` (0.5): the malformed-configuration example named
by the specification. -/
def badNegGtPosOptions : VadOptions :=
  { defaultVadOptions with negativeSpeechThreshold := 0.9 }

/-- A configuration whose `positiveSpeechThreshold` (1.5) lies above 1,
with every other field at its default (in particular
`negativeSpeechThreshold = 0.35`, which is within `[0, positive]`). -/
def badPosGtOneOptions : VadOptions :=
  { defaultVadOptions with positiveSpeechThreshold := 1.5 }

/-- A configuration with `minSpeechFrames = 0 < 1` and every other field at
its default (valid) value. -/
def badMinSpeechOptions : VadOptions :=
  { defaultVadOptions with minSpeechFrames := 0 }

/-- A configuration whose `frameSamples` (2048) is outside
`RECOMMENDED_FRAME_SAMPLES`, with every other field at its default. -/
def frameSamples2048Options : VadOptions :=
  { defaultVadOptions with frameSamples := 2048 }

/-- C1 counterexample: at the malformed configuration
`negativeSpeechThreshold = 0.9 > 0.5 = positiveSpeechThreshold`, construction
does not fail: `micVADConstruct` returns `ok` with an engine instance
holding exactly that configuration, refuting the claim that the error is
surfaced by failing construction with no instance produced. -/
theorem C1_construction_does_not_fail :
    badNegGtPosOptions.negativeSpeechThreshold >
      badNegGtPosOptions.positiveSpeechThreshold ∧
    micVADConstruct badNegGtPosOptions =
      Except.ok (⟨badNegGtPosOptions⟩, validateOptions badNegGtPosOptions) := by
  refine ⟨?_, rfl⟩
  norm_num [badNegGtPosOptions, defaultVadOptions]

/-- C1 (amended): for every configuration with
`negativeSpeechThreshold > positiveSpeechThreshold`, construction still
succeeds and produces an engine instance; the violation is surfaced only as
an error-level log event emitted during construction. -/
theorem C1_validation_logs_but_construction_succeeds (o : VadOptions)
    (h : o.negativeSpeechThreshold > o.positiveSpeechThreshold) :
    micVADConstruct o = Except.ok (⟨o⟩, validateOptions o) ∧
    (validateOptions o).any (fun e => e.level == LogLevel.error) = true := by
  refine ⟨rfl, ?_⟩
  simp only [validateOptions, List.any_append]
  rw [if_pos (Or.inr h)]
  simp

/-- C1 witness: the amended claim instantiated at the concrete malformed
configuration `badNegGtPosOptions`. -/
theorem C1_validation_logs_witness :
    micVADConstruct badNegGtPosOptions =
      Except.ok (⟨badNegGtPosOptions⟩, validateOptions badNegGtPosOptions) ∧
    (validateOptions badNegGtPosOptions).any (fun e => e.level == LogLevel.error) = true :=
  C1_validation_logs_but_construction_succeeds badNegGtPosOptions
    (by norm_num [badNegGtPosOptions, defaultVadOptions])

/-- C2: the code bug evaluated.  With `positiveSpeechThreshold = 1.5 > 1`
(and all other fields at their valid defaults), `validateOptions` emits
nothing at all: its range check tests `negativeSpeechThreshold > 1` where
its own error message speaks of `positiveSpeechThreshold`, so a positive
threshold above 1 is never reported. -/
theorem C2_pos_threshold_above_one_unreported :
    badPosGtOneOptions.positiveSpeechThreshold > 1 ∧
    validateOptions badPosGtOneOptions = [] := by
  constructor
  · norm_num [badPosGtOneOptions, defaultVadOptions]
  · norm_num [validateOptions, badPosGtOneOptions, defaultVadOptions,
      RECOMMENDED_FRAME_SAMPLES]

/-- C3 counterexample: with `minSpeechFrames = 0 < 1` and all other fields
valid, `validateOptions` reports nothing, refuting the claim that the
constraint `minSpeechFrames ≥ 1` is checked at construction. -/
theorem C3_minSpeech_zero_unreported :
    badMinSpeechOptions.minSpeechFrames < 1 ∧
    validateOptions badMinSpeechOptions = [] := by
  constructor
  · norm_num [badMinSpeechOptions, defaultVadOptions]
  · norm_num [validateOptions, badMinSpeechOptions, defaultVadOptions,
      RECOMMENDED_FRAME_SAMPLES]

/-- C3 (amended): construction-time validation never inspects
`minSpeechFrames` at all — changing that field to any value leaves the
validation report unchanged. -/
theorem C3_minSpeech_not_validated (o : VadOptions) (q : ℚ) :
    validateOptions { o with minSpeechFrames := q } = validateOptions o := rfl

/-- C4: the negative-threshold violation is reported exactly when
`negativeSpeechThreshold < 0` or
`negativeSpeechThreshold > positiveSpeechThreshold`: the error event about
`negativeSpeechThreshold` is in the validation report iff the configuration
violates `0 ≤ negative ≤ positive`. -/
theorem C4_neg_threshold_check_exact (o : VadOptions) :
    (⟨LogLevel.error,
      "negativeSpeechThreshold should be between 0 and postiveSpeechThreshold"⟩ : LogEvent) ∈
        validateOptions o ↔
    (o.negativeSpeechThreshold < 0 ∨
      o.negativeSpeechThreshold > o.positiveSpeechThreshold) := by
  simp only [validateOptions, List.mem_append]
  split_ifs <;> simp_all

/-- C5: a `frameSamples` outside the recommended set {512, 1024, 1536} is
soft: the warning event is emitted, and construction nevertheless succeeds
and produces the engine instance. -/
theorem C5_unusual_frame_size_soft (o : VadOptions)
    (h : o.frameSamples ∉ RECOMMENDED_FRAME_SAMPLES) :
    (⟨LogLevel.warn, "You are using an unusual frame size"⟩ : LogEvent) ∈
      validateOptions o ∧
    micVADConstruct o = Except.ok (⟨o⟩, validateOptions o) := by
  refine ⟨?_, rfl⟩
  simp only [validateOptions, List.mem_append]
  rw [if_neg h]
  simp

/-- C5 witness: instantiated at `frameSamples = 2048`. -/
theorem C5_unusual_frame_size_witness :
    (⟨LogLevel.warn, "You are using an unusual frame size"⟩ : LogEvent) ∈
      validateOptions frameSamples2048Options ∧
    micVADConstruct frameSamples2048Options =
      Except.ok (⟨frameSamples2048Options⟩, validateOptions frameSamples2048Options) :=
  C5_unusual_frame_size_soft frameSamples2048Options
    (by norm_num [frameSamples2048Options, defaultVadOptions, RECOMMENDED_FRAME_SAMPLES])

/-!  The startup sequence of `MicVAD.new`, embedded as an ordered trace of
the effectful steps it performs. -/

/-- The effectful steps performed while building a `MicVAD` and, later,
while frames flow.  `validateConfig` is the `validateOptions` call of a
constructor; `acquireStream` is the `getUserMedia` await in `MicVAD.init`;
`installFrameHandler` is the assignment of `vadNode.port.onmessage` in
`AudioNodeVAD.init`; `processFrame` is a `frameProcessor.process` call made
by that handler once a frame message arrives. -/
inductive TraceEvent where
  | validateConfig
  | acquireStream
  | createAudioContext
  | loadWorklet
  | createModel
  | installFrameHandler
  | connectSource
  | processFrame
deriving DecidableEq, Repr

/-- The steps of `AudioNodeVAD.new` (lines 134-138) in execution order:
the constructor (line 141, `validateOptions`), then `init` (lines 159-200):
`addModule`, `Silero.new`, and installation of the port message handler. -/
def audioNodeVADNewTrace : List TraceEvent :=
  [TraceEvent.validateConfig, TraceEvent.loadWorklet, TraceEvent.createModel,
   TraceEvent.installFrameHandler]

/-- The steps of `MicVAD.new` (lines 83-87) in execution order: the
`MicVAD` constructor (line 90, `validateOptions`), then `init`
(lines 93-111): `getUserMedia`, `new AudioContext`, `AudioNodeVAD.new`
(whose own steps are spliced in), and `receive` connecting the source node.
No frame is processed during `new`: frames reach `frameProcessor.process`
only through the message handler, after `new` has returned. -/
def micVADNewTrace : List TraceEvent :=
  [TraceEvent.validateConfig] ++
  [TraceEvent.acquireStream, TraceEvent.createAudioContext] ++
  audioNodeVADNewTrace ++
  [TraceEvent.connectSource]

/-- C6: in the `MicVAD.new` trace, the constructor's `validateOptions` call
precedes the media-stream acquisition, which precedes installation of the
frame handler, and no frame is processed anywhere in the trace — so every
configuration violation is reported before the first frame is processed. -/
theorem C6_validation_before_stream :
    micVADNewTrace.indexOf TraceEvent.validateConfig <
      micVADNewTrace.indexOf TraceEvent.acquireStream ∧
    micVADNewTrace.indexOf TraceEvent.acquireStream <
      micVADNewTrace.indexOf TraceEvent.installFrameHandler ∧
    TraceEvent.processFrame ∉ micVADNewTrace := by
  decide

/-!  The duration-to-frame-count helper. -/

/-- `minSamplesForTargetMS` (lines 27-33):
`Math.ceil((targetDuration * sr) / 1000 / frameSamples)`. -/
def minSamplesForTargetMS (targetDuration frameSamples sr : ℚ) : ℤ :=
  ⌈targetDuration * sr / 1000 / frameSamples⌉

/-- The integers n whose n frames of `frameSamples` samples cover a target
duration of `targetDuration` milliseconds at sample rate `sr`. -/
def framesCovering (targetDuration frameSamples sr : ℚ) : Set ℤ :=
  {n : ℤ | targetDuration * sr / 1000 ≤ (n : ℚ) * frameSamples}

/-- C8: for `targetDuration ≥ 0`, `frameSamples > 0` and `sr > 0`,
`minSamplesForTargetMS` returns the least integer n with
`n * frameSamples ≥ targetDuration * sr / 1000`. -/
theorem C8_minSamples_is_least (targetDuration frameSamples sr : ℚ)
    (_ht : 0 ≤ targetDuration) (hf : 0 < frameSamples) (_hs : 0 < sr) :
    IsLeast (framesCovering targetDuration frameSamples sr)
      (minSamplesForTargetMS targetDuration frameSamples sr) := by
  constructor
  · show targetDuration * sr / 1000 ≤
      ((⌈targetDuration * sr / 1000 / frameSamples⌉ : ℤ) : ℚ) * frameSamples
    exact (div_le_iff₀ hf).mp (Int.le_ceil _)
  · intro m hm
    exact Int.ceil_le.mpr ((div_le_iff₀ hf).mpr hm)

/-- C8 witness: 30 ms of audio at 16 kHz in frames of 512 samples. -/
theorem C8_minSamples_witness :
    IsLeast (framesCovering 30 512 16000) (minSamplesForTargetMS 30 512 16000) :=
  C8_minSamples_is_least 30 512 16000 (by norm_num) (by norm_num) (by norm_num)

/-!  The `AudioNodeVAD` flag fields and the closures and methods that
write them. -/

/-- The two mutable flag fields of `AudioNodeVAD` (lines 129-130). -/
structure AudioNodeVADState where
  listening : Bool
  speaking : Bool
deriving DecidableEq, Repr

/-- The field initializers of `AudioNodeVAD` (lines 129-130): both flags
start false. -/
def initialAudioNodeVADState : AudioNodeVADState where
  listening := false
  speaking := false

/-- The two user callbacks whose invocation the flag claims speak about. -/
inductive CallbackEvent where
  | onSpeechStart
  | onSpeechEnd
deriving DecidableEq, Repr

/-- The `signalSpeechStart` closure wired into the frame processor in
`AudioNodeVAD.init` (lines 172-175): it assigns `speaking = true`, then
invokes the user's `onSpeechStart`.  The result pairs the final state with
the callback invocations, each recorded with the state current at the
moment of the call. -/
def signalSpeechStart (s : AudioNodeVADState) :
    AudioNodeVADState × List (AudioNodeVADState × CallbackEvent) :=
  let s1 := { s with speaking := true }
  (s1, [(s1, CallbackEvent.onSpeechStart)])

/-- The `signalSpeechEnd` closure (lines 176-179): it assigns
`speaking = false`, then invokes the user's `onSpeechEnd`. -/
def signalSpeechEnd (s : AudioNodeVADState) :
    AudioNodeVADState × List (AudioNodeVADState × CallbackEvent) :=
  let s1 := { s with speaking := false }
  (s1, [(s1, CallbackEvent.onSpeechEnd)])

/-- C9: `speaking` tracks segment phase at the callback boundary: after
`signalSpeechStart` the flag is true and every `onSpeechStart` invocation
it performs sees `speaking = true`; after `signalSpeechEnd` the flag is
false and every `onSpeechEnd` invocation it performs sees
`speaking = false`. -/
theorem C9_speaking_tracks_callbacks (s : AudioNodeVADState) :
    (signalSpeechStart s).1.speaking = true ∧
    ((signalSpeechStart s).2.all fun p => p.1.speaking) = true ∧
    (signalSpeechEnd s).1.speaking = false ∧
    ((signalSpeechEnd s).2.all fun p => !p.1.speaking) = true := by
  simp [signalSpeechStart, signalSpeechEnd]

/-- The two public control methods of `AudioNodeVAD` as far as its own
fields are concerned. -/
inductive VadControlOp where
  | pauseOp
  | startOp
deriving DecidableEq, Repr

/-- Effect of `AudioNodeVAD.pause` (lines 144-148) and
`AudioNodeVAD.start` (lines 150-153) on the flag fields: `pause` calls
`frameProcessor.pause()` and assigns `listening = false`; `start` calls
`frameProcessor.resume()` and assigns no field of `AudioNodeVAD` at all. -/
def applyControlOp (s : AudioNodeVADState) : VadControlOp → AudioNodeVADState
  | VadControlOp.pauseOp => { s with listening := false }
  | VadControlOp.startOp => s

/-- State of the flags after a sequence of `pause`/`start` calls on a
freshly initialized `AudioNodeVAD`. -/
def runControlOps (ops : List VadControlOp) : AudioNodeVADState :=
  ops.foldl applyControlOp initialAudioNodeVADState

theorem foldl_controlOps_listening (ops : List VadControlOp) :
    ∀ s : AudioNodeVADState, s.listening = false →
      (ops.foldl applyControlOp s).listening = false := by
  induction ops with
  | nil => intro s hs; simpa using hs
  | cons op rest ih =>
    intro s hs
    cases op with
    | pauseOp => exact ih _ rfl
    | startOp => exact ih _ hs

/-- C10: `listening` starts false and no sequence of `pause`/`start` calls
ever makes it true — `pause` re-assigns false and `start` never assigns
it. -/
theorem C10_listening_never_true (ops : List VadControlOp) :
    (runControlOps ops).listening = false :=
  foldl_controlOps_listening ops initialAudioNodeVADState rfl

/-!  The frame decision engine.  Its source file (src/frame-processor.ts)
is not part of the sources available here; only its construction site in
`AudioNodeVAD.init` is.  The definitions below are therefore modelled from
the specification of the engine. -/

/-- A frame of audio samples. -/
abbrev Frame := List ℚ

/-- Modelled from the spec: the configuration of the frame decision engine
(the last five fields passed to the `FrameProcessor` constructor in
`AudioNodeVAD.init`, lines 181-185). -/
structure FrameProcessorOptions where
  positiveSpeechThreshold : ℚ
  negativeSpeechThreshold : ℚ
  redemptionFrames : ℕ
  preSpeechPadFrames : ℕ
  minSpeechFrames : ℕ
deriving DecidableEq, Repr

/-- Modelled from the spec: the engine state — the two-phase `EngineState`
(`active = false` is Idle, `active = true` is Active), the pre-speech pad
buffer, the segment accumulator, the number of pad frames seeded into the
accumulator at onset, and the redemption counter. -/
structure FrameProcessorState where
  active : Bool
  padBuffer : List Frame
  accumulator : List Frame
  padSeedCount : ℕ
  redemptionCounter : ℕ
deriving DecidableEq, Repr

/-- Modelled from the spec: the initial engine state — Idle with empty
buffers. -/
def initialFrameProcessorState : FrameProcessorState where
  active := false
  padBuffer := []
  accumulator := []
  padSeedCount := 0
  redemptionCounter := 0

/-- The events the engine emits while processing one frame, in emission
order. -/
inductive FrameEvent where
  | frameProcessed (speechScore : ℚ)
  | speechStart
  | speechEnd (audio : List ℚ)
  | misfire
  | modelReset
deriving DecidableEq, Repr

/-- Modelled from the spec: the per-frame step of the frame decision engine
(`FrameProcessor.process`; src/frame-processor.ts is not under the
available sources).  The probability source is external, so the frame's
`speechScore` is an input.  Idle: the per-frame event is emitted and, when
`speechScore ≥ positiveSpeechThreshold` (inclusive), the engine transitions
to Active, seeding the accumulator with the pad buffer contents in
chronological order followed by the current frame, resetting the redemption
counter to `redemptionFrames`, emitting the segment-start event and
clearing the pad buffer; otherwise the frame is pushed into the pad buffer,
evicting the oldest frame beyond the `preSpeechPadFrames` capacity.
Active: the frame is appended to the accumulator; when
`speechScore ≥ negativeSpeechThreshold` (inclusive) the redemption counter
is reset to `redemptionFrames`; otherwise it is decremented, and on
reaching zero the segment is finalized — a misfire event if the post-onset
frame count is below `minSpeechFrames`, otherwise a segment-end event
carrying the concatenated accumulator — followed by a model-state reset and
a return to Idle with cleared buffers. -/
def FrameProcessor.process (opts : FrameProcessorOptions)
    (s : FrameProcessorState) (frame : Frame) (speechScore : ℚ) :
    FrameProcessorState × List FrameEvent :=
  if s.active = false then
    if opts.positiveSpeechThreshold ≤ speechScore then
      ({ active := true
         padBuffer := []
         accumulator := s.padBuffer ++ [frame]
         padSeedCount := s.padBuffer.length
         redemptionCounter := opts.redemptionFrames },
       [FrameEvent.frameProcessed speechScore, FrameEvent.speechStart])
    else
      ({ s with
         padBuffer := (s.padBuffer ++ [frame]).drop
           (s.padBuffer.length + 1 - opts.preSpeechPadFrames) },
       [FrameEvent.frameProcessed speechScore])
  else
    let acc := s.accumulator ++ [frame]
    if opts.negativeSpeechThreshold ≤ speechScore then
      ({ s with accumulator := acc, redemptionCounter := opts.redemptionFrames },
       [FrameEvent.frameProcessed speechScore])
    else if s.redemptionCounter - 1 = 0 then
      if acc.length - s.padSeedCount < opts.minSpeechFrames then
        (initialFrameProcessorState,
         [FrameEvent.frameProcessed speechScore, FrameEvent.misfire,
          FrameEvent.modelReset])
      else
        (initialFrameProcessorState,
         [FrameEvent.frameProcessed speechScore, FrameEvent.speechEnd acc.flatten,
          FrameEvent.modelReset])
    else
      ({ s with accumulator := acc, redemptionCounter := s.redemptionCounter - 1 },
       [FrameEvent.frameProcessed speechScore])

/-- Running the engine over a stream of (frame, speech score) pairs,
collecting emitted events in order. -/
def FrameProcessor.runFrom (opts : FrameProcessorOptions) :
    FrameProcessorState → List (Frame × ℚ) → FrameProcessorState × List FrameEvent
  | s, [] => (s, [])
  | s, i :: rest =>
    ((FrameProcessor.runFrom opts (FrameProcessor.process opts s i.1 i.2).1 rest).1,
     (FrameProcessor.process opts s i.1 i.2).2 ++
       (FrameProcessor.runFrom opts (FrameProcessor.process opts s i.1 i.2).1 rest).2)

/-- Concrete engine configuration: the defaults of the repository
(`positive = 0.5`, `negative = 0.35`, `redemption = 2`, `pad = 1`,
`minSpeech = 3`), which are also the parameters of the specification's
worked scenario. -/
def defaultFrameProcessorOptions : FrameProcessorOptions where
  positiveSpeechThreshold := 0.5
  negativeSpeechThreshold := 0.5 - 0.15
  redemptionFrames := 2
  preSpeechPadFrames := 1
  minSpeechFrames := 3

/-- The scenario stream of the specification: eight one-sample frames with
speech scores [0.1, 0.1, 0.9, 0.9, 0.9, 0.1, 0.1, 0.1]. -/
def scenarioInputs : List (Frame × ℚ) :=
  [([1], 0.1), ([2], 0.1), ([3], 0.9), ([4], 0.9), ([5], 0.9),
   ([6], 0.1), ([7], 0.1), ([8], 0.1)]

set_option maxHeartbeats 1000000 in
/-- Sanity check of the modelled engine against the specification's worked
scenario (redemption 2, minSpeech 3, pad 1, thresholds 0.5/0.35): onset at
the third frame with the second frame as pad, countdown at the sixth and
seventh frames, and a segment-end event at the seventh frame delivering the
six frames from the pad frame through the finalizing frame. -/
theorem frameProcessor_scenario_matches_spec :
    (FrameProcessor.runFrom defaultFrameProcessorOptions initialFrameProcessorState
      scenarioInputs).2 =
      [FrameEvent.frameProcessed 0.1, FrameEvent.frameProcessed 0.1,
       FrameEvent.frameProcessed 0.9, FrameEvent.speechStart,
       FrameEvent.frameProcessed 0.9, FrameEvent.frameProcessed 0.9,
       FrameEvent.frameProcessed 0.1, FrameEvent.frameProcessed 0.1,
       FrameEvent.speechEnd [2, 3, 4, 5, 6, 7], FrameEvent.modelReset,
       FrameEvent.frameProcessed 0.1] := by
  norm_num [FrameProcessor.runFrom, FrameProcessor.process, scenarioInputs,
    defaultFrameProcessorOptions, initialFrameProcessorState]

/-- C7: threshold comparisons are inclusive at both boundaries: from Idle,
a frame whose speech score equals `positiveSpeechThreshold` exactly
triggers onset (the state becomes Active and the segment-start event is
emitted); while Active, a frame whose speech score equals
`negativeSpeechThreshold` exactly resets the redemption counter to
`redemptionFrames`. -/
theorem C7_inclusive_thresholds (opts : FrameProcessorOptions)
    (s : FrameProcessorState) (frame : Frame) :
    (s.active = false →
      (FrameProcessor.process opts s frame opts.positiveSpeechThreshold).1.active = true ∧
      FrameEvent.speechStart ∈
        (FrameProcessor.process opts s frame opts.positiveSpeechThreshold).2) ∧
    (s.active = true →
      (FrameProcessor.process opts s frame
        opts.negativeSpeechThreshold).1.redemptionCounter = opts.redemptionFrames) := by
  constructor
  · intro h
    simp [FrameProcessor.process, h]
  · intro h
    simp [FrameProcessor.process, h]

/-- A concrete Active engine state: one accumulated frame, counter at 2. -/
def activeFrameProcessorState : FrameProcessorState where
  active := true
  padBuffer := []
  accumulator := [[0]]
  padSeedCount := 0
  redemptionCounter := 2

/-- C7 witness: the boundary behaviour at the default configuration, from
the initial Idle state and from a concrete Active state. -/
theorem C7_inclusive_thresholds_witness :
    ((FrameProcessor.process defaultFrameProcessorOptions initialFrameProcessorState
        [0] defaultFrameProcessorOptions.positiveSpeechThreshold).1.active = true ∧
      FrameEvent.speechStart ∈
        (FrameProcessor.process defaultFrameProcessorOptions initialFrameProcessorState
          [0] defaultFrameProcessorOptions.positiveSpeechThreshold).2) ∧
    (FrameProcessor.process defaultFrameProcessorOptions activeFrameProcessorState
      [0] defaultFrameProcessorOptions.negativeSpeechThreshold).1.redemptionCounter =
      defaultFrameProcessorOptions.redemptionFrames :=
  ⟨(C7_inclusive_thresholds defaultFrameProcessorOptions
      initialFrameProcessorState [0]).1 rfl,
   (C7_inclusive_thresholds defaultFrameProcessorOptions
      activeFrameProcessorState [0]).2 rfl⟩

end VAD
